import Mathlib

/-!
Shallow embedding of the `ai-smart-client` resilience layer: the
sliding-window rate limiter (`RateLimitManager`), the fixed-interval
throttle (`ThrottleManager`, `DelayUtils`), the retry/backoff engine
(`RetryManager`), the configuration validator
(`ConfigValidator.validateThrottleSettings`) and the orchestration in
`OpenAIClientService.prompt` / `executeWithRateLimiting` /
`buildErrorResponse`.

Modelling conventions:
* Timestamps (`Date.now()` values) are integers (milliseconds).
* Fractional quantities (delays, jitter factors) are rationals.
* Each call to `Math.random()` is modelled as an explicit parameter
  `rand` constrained to `0 ≤ rand < 1` where it matters.
* Asynchronous sleeping has no effect on any computed value, so the
  embedding passes the slept amount around as data instead of waiting.
* A JavaScript `unknown` thrown value is modelled by `JsError`:
  `isErrorInstance` models `value instanceof Error`, `message` models
  `error.message` (respectively the `String(error)` rendering for a
  non-`Error` value), and the optional `status` / `statusCode` fields
  model the presence of those properties on the object.
-/

namespace AISmartClient

/-- JavaScript `pat`-is-at-the-head-of-`s` test on character lists
(helper for modelling `String.prototype.includes`). -/
def charsLeading : List Char → List Char → Bool
  | [], _ => true
  | _ :: _, [] => false
  | a :: as, b :: bs => a == b && charsLeading as bs

/-- Does `pat` occur contiguously somewhere in `s`? -/
def charsContain (pat : List Char) : List Char → Bool
  | [] => charsLeading pat []
  | c :: rest => charsLeading pat (c :: rest) || charsContain pat rest

/-- Model of JavaScript `s.includes(pat)` (substring containment). -/
def strIncludes (s pat : String) : Bool :=
  charsContain pat.data s.data

/-! ### Source file `constants/error.constants.ts` -/

/-- Model of `ERROR_KEYWORDS` from `error.constants.ts`. -/
def KW_RATE_LIMIT : String := "rate limit"

def KW_TIMEOUT : String := "timeout"

def KW_TIMED_OUT : String := "timed out"

def KW_NETWORK : String := "network"

def KW_NETWORK_ERROR : String := "network error"

def KW_SCHEMA_MISMATCH : String := "does not match expected schema"

def KW_API : String := "API"

def KW_ECONNREFUSED : String := "ECONNREFUSED"

def KW_ENOTFOUND : String := "ENOTFOUND"

def KW_ETIMEDOUT : String := "ETIMEDOUT"

def KW_ECONNRESET : String := "ECONNRESET"

/-- Model of `DEFAULT_ERROR_MESSAGES.UNKNOWN`. -/
def DEFAULT_UNKNOWN_MESSAGE : String := "An unknown error occurred"

/-! ### The model of a thrown JavaScript value -/

/-- A thrown JavaScript `unknown` value, as seen by the error-handling
code: whether it is an `Error` instance, its message (or string
rendering), and its optional numeric `status` / `statusCode` fields. -/
structure JsError where
  isErrorInstance : Bool
  message : String
  status : Option Int := none
  statusCode : Option Int := none
deriving DecidableEq

/-- The `undefined` value (what `onError` receives when the retry loop
falls through with no recorded error, impossible for `maxAttempts ≥ 1`). -/
def jsUndefined : JsError :=
  { isErrorInstance := false, message := "undefined" }

/-- Model of `RetryManager.getErrorMessage`: `error.message` for an `Error`
instance, the `String(error)` rendering otherwise; both are carried by
the `message` field of the model. -/
def getErrorMessage (e : JsError) : String :=
  e.message

/-- Model of `RetryManager.getErrorCode`: the `status` property if present,
otherwise the `statusCode` property if present, otherwise `null`. -/
def getErrorCode (e : JsError) : Option Int :=
  match e.status with
  | some c => some c
  | none => e.statusCode

/-! ### Source method `RetryManager.isRetriableError` -/

/-- Model of `RetryManager.isRetriableError`, translated branch by branch from
`retry.manager.ts`. -/
def isRetriableError (e : JsError) : Bool :=
  let errorMessage := getErrorMessage e
  let errorCode := getErrorCode e
  if errorCode == some 429 || strIncludes errorMessage KW_RATE_LIMIT ||
      strIncludes errorMessage "429" then
    true
  else if strIncludes errorMessage KW_TIMEOUT ||
      strIncludes errorMessage KW_TIMED_OUT then
    true
  else if errorCode == some 500 || errorCode == some 502 ||
      errorCode == some 503 || errorCode == some 504 then
    true
  else if strIncludes errorMessage "500" || strIncludes errorMessage "502" ||
      strIncludes errorMessage "503" || strIncludes errorMessage "504" then
    true
  else if strIncludes errorMessage KW_ECONNREFUSED ||
      strIncludes errorMessage KW_ENOTFOUND ||
      strIncludes errorMessage KW_ETIMEDOUT ||
      strIncludes errorMessage KW_ECONNRESET ||
      strIncludes errorMessage KW_NETWORK_ERROR then
    true
  else
    false

/-- The retriable-error classification as the specification words it:
one flat disjunction of rate-limit rejection, timeout, upstream 5xx
(status or message marker), and transport/network failure. Written from
the claim, to be compared with the source-translated
`isRetriableError`. -/
def retriableSpec (e : JsError) : Bool :=
  let msg := getErrorMessage e
  let code := getErrorCode e
  (code == some 429 || strIncludes msg KW_RATE_LIMIT || strIncludes msg "429")
  || (strIncludes msg KW_TIMEOUT || strIncludes msg KW_TIMED_OUT)
  || (code == some 500 || code == some 502 || code == some 503 ||
      code == some 504 || strIncludes msg "500" || strIncludes msg "502" ||
      strIncludes msg "503" || strIncludes msg "504")
  || (strIncludes msg KW_ECONNREFUSED || strIncludes msg KW_ENOTFOUND ||
      strIncludes msg KW_ETIMEDOUT || strIncludes msg KW_ECONNRESET ||
      strIncludes msg KW_NETWORK_ERROR)

/-! ### Source method `RetryManager.executeWithRetry` -/

/-- The retry loop of `RetryManager.executeWithRetry` (`enabled` case):
`fuel` is the number of loop iterations still allowed, `attempt` the
current 0-based attempt index, `lastError` the `lastError` local.  The
`fn` argument gives the outcome of the `n`-th invocation of the attempt
function; the second component of the result counts how many times the
attempt function was invoked.  When the fuel runs out the loop exits and
returns `onError lastError` (with `lastError = none` modelling the
JavaScript `undefined` when no iteration ever ran). -/
def executeWithRetryAux {α : Type} (fn : Nat → Except JsError α)
    (onError : Option JsError → α) :
    Nat → Nat → Option JsError → α × Nat
  | 0, _attempt, lastError => (onError lastError, 0)
  | fuel + 1, attempt, _lastError =>
    match fn attempt with
    | Except.ok v => (v, 1)
    | Except.error e =>
      if isRetriableError e then
        let rest := executeWithRetryAux fn onError fuel (attempt + 1) (some e)
        (rest.1, rest.2 + 1)
      else
        (onError (some e), 1)

/-- Model of `RetryManager.executeWithRetry`: if retry is disabled, a single
attempt with any failure routed to `onError`; otherwise the loop above
with `maxAttempts` iterations.  Returns the result together with the
number of invocations of the attempt function. -/
def executeWithRetry {α : Type} (enabled : Bool) (maxAttempts : Nat)
    (fn : Nat → Except JsError α) (onError : Option JsError → α) : α × Nat :=
  if enabled then
    executeWithRetryAux fn onError maxAttempts 0 none
  else
    match fn 0 with
    | Except.ok v => (v, 1)
    | Except.error e => (onError (some e), 1)

/-! ### Source method `RetryManager.calculateDelay` -/

/-- Model of `RetryManager.calculateDelay`: capped exponential backoff with a
random jitter of up to 25% of the capped value, floored to an integer.
`rand` models the `Math.random()` sample. -/
def calculateDelay (baseDelay maxDelay : ℚ) (attempt : Nat) (rand : ℚ) : ℤ :=
  let exponentialDelay := baseDelay * 2 ^ attempt
  let cappedDelay := min exponentialDelay maxDelay
  let jitter := rand * (1/4) * cappedDelay
  Int.floor (cappedDelay + jitter)

/-! ### Source file `utils/delay.utils.ts` -/

/-- Model of `DelayUtils.calculateDelayWithJitter`: with jitter disabled return
the base delay unchanged; otherwise add a uniform random jitter of
`baseDelay * (± jitterFactor)` and clamp the result at 0.  `rand`
models the `Math.random()` sample. -/
def calculateDelayWithJitter (baseDelay : ℚ) (useJitter : Bool)
    (jitterFactor : ℚ) (rand : ℚ) : ℚ :=
  if useJitter = false then baseDelay
  else
    let jitterAmount := baseDelay * jitterFactor
    let randomJitter := (rand * 2 - 1) * jitterAmount
    max 0 (baseDelay + randomJitter)

/-! ### Source class `ThrottleManager` (`throttle.manager.ts`) -/

/-- The mutable state and configuration of a `ThrottleManager`. -/
structure ThrottleState where
  requestDelay : Option ℚ
  useJitter : Bool
  jitterFactor : ℚ
  lastRequestTime : ℚ
deriving DecidableEq

/-- JavaScript truthiness of `this.requestDelay`: falsy when the field
is `undefined` or `0`. -/
def requestDelayTruthy : Option ℚ → Bool
  | none => false
  | some d => decide (d ≠ 0)

/-- Model of `ThrottleManager.throttle`.  The argument `now` models `Date.now()` at entry and
`nowAfterSleep` models `Date.now()` after the (possible) sleep; `rand`
models the `Math.random()` sample inside the jitter computation.  The
first component is the slept delay (`none` when no sleep happened), the
second the updated state. -/
def throttle (s : ThrottleState) (now nowAfterSleep : ℚ) (rand : ℚ) :
    Option ℚ × ThrottleState :=
  if requestDelayTruthy s.requestDelay = false then (none, s)
  else
    let d := s.requestDelay.getD 0
    let timeSinceLastRequest := now - s.lastRequestTime
    let sleepAmount :=
      if timeSinceLastRequest < d then
        some (calculateDelayWithJitter (d - timeSinceLastRequest)
          s.useJitter s.jitterFactor rand)
      else none
    (sleepAmount, { s with lastRequestTime := nowAfterSleep })

/-! ### Source class `RateLimitManager` -/

/-- Model of `RATE_LIMIT_WINDOW_MS` (one minute). -/
def RATE_LIMIT_WINDOW_MS : Int := 60000

/-- The mutable state and configuration of a `RateLimitManager`:
optional per-minute limits and the two pruned timestamp sequences. -/
structure RateLimitState where
  requestsPerMinute : Option Nat
  tokensPerMinute : Option Nat
  requestTimestamps : List Int
  tokenTimestamps : List (Int × Nat)
deriving DecidableEq

/-- Model of `RateLimitManager.isRequestRateLimitExceeded`. -/
def isRequestRateLimitExceeded (s : RateLimitState) : Bool :=
  match s.requestsPerMinute with
  | none => false
  | some r => decide (s.requestTimestamps.length ≥ r)

/-- Model of `RateLimitManager.isTokenRateLimitExceeded`. -/
def isTokenRateLimitExceeded (s : RateLimitState) (estimatedTokens : Nat) :
    Bool :=
  match s.tokensPerMinute with
  | none => false
  | some limit =>
    if estimatedTokens = 0 then false
    else
      let tokensUsedInLastMinute :=
        s.tokenTimestamps.foldl (fun sum t => sum + t.2) 0
      decide (tokensUsedInLastMinute + estimatedTokens > limit)

/-- The two pruning assignments at the top of
`RateLimitManager.canMakeRequest`: drop entries whose timestamp is not
strictly newer than `now - 60000`. -/
def pruneWindow (s : RateLimitState) (now : Int) : RateLimitState :=
  let oneMinuteAgo := now - RATE_LIMIT_WINDOW_MS
  { s with
    requestTimestamps :=
      s.requestTimestamps.filter (fun ts => decide (oneMinuteAgo < ts)),
    tokenTimestamps :=
      s.tokenTimestamps.filter (fun t => decide (oneMinuteAgo < t.1)) }

/-- Model of `RateLimitManager.canMakeRequest`: prune both sequences, then test
the request-count and token limits.  Returns the admission verdict
together with the mutated (pruned) state. -/
def canMakeRequest (s : RateLimitState) (now : Int) (estimatedTokens : Nat) :
    Bool × RateLimitState :=
  let s' := pruneWindow s now
  if isRequestRateLimitExceeded s' then (false, s')
  else if isTokenRateLimitExceeded s' estimatedTokens then (false, s')
  else (true, s')

/-- Model of `RateLimitManager.recordRequest`: always append a request
timestamp; append a token entry only when `tokensUsed > 0` (the
JavaScript parameter defaults to 0). -/
def recordRequest (s : RateLimitState) (now : Int) (tokensUsed : Nat) :
    RateLimitState :=
  let s' := { s with requestTimestamps := s.requestTimestamps ++ [now] }
  if tokensUsed > 0 then
    { s' with tokenTimestamps := s'.tokenTimestamps ++ [(now, tokensUsed)] }
  else s'

/-- Model of `RateLimitManager.waitForRateLimit` along a given schedule
of poll times (the JavaScript loop re-polls `canMakeRequest` after a
1000 ms sleep; the schedule abstracts those wake times).  Returns the
poll time at which admission succeeded together with the state, or
`none` when no poll of the schedule was admitted — i.e. the caller is
still suspended in the rate-limit wait at the end of the schedule. -/
def waitForRateLimit (s : RateLimitState) (est : Nat) :
    List Int → Option (Int × RateLimitState)
  | [] => none
  | t :: ts =>
    match canMakeRequest s t est with
    | (true, s') => some (t, s')
    | (false, s') => waitForRateLimit s' est ts

/-! ### Source method `ConfigValidator.validateThrottleSettings` -/

/-- The validated throttle settings returned by
`ConfigValidator.validateThrottleSettings`. -/
structure ThrottleSettings where
  requestDelay : Option ℚ
  useJitter : Bool
  jitterFactor : ℚ
deriving DecidableEq

/-- Model of `ConfigValidator.validateThrottleSettings`: rejects a negative
`requestDelay` (`MIN_REQUEST_DELAY_MS = 0`), defaults `useJitter` to
`true` and `jitterFactor` to `0.3`, and rejects a jitter factor outside
`[0, 1]`. -/
def validateThrottleSettings (requestDelay : Option ℚ)
    (useJitter : Option Bool) (jitterFactor : Option ℚ) :
    Except String ThrottleSettings :=
  let finish : Option ℚ → Except String ThrottleSettings := fun validated =>
    let validatedUseJitter := useJitter.getD true
    let validatedJitterFactor := jitterFactor.getD (3/10)
    if validatedJitterFactor < 0 ∨ validatedJitterFactor > 1 then
      Except.error "jitterFactor must be between 0 and 1"
    else
      Except.ok ⟨validated, validatedUseJitter, validatedJitterFactor⟩
  match requestDelay with
  | none => finish none
  | some d =>
    if d < 0 then
      Except.error "requestDelay must be non-negative (at least 0ms)"
    else finish (some d)

/-! ### Orchestrator (`OpenAIClientService`) -/

/-- Model of `PromptResponseStatus` from `prompt.types.ts`. -/
inductive PromptResponseStatus where
  | SUCCESS
  | VALIDATION_ERROR
  | API_ERROR
  | RATE_LIMIT_ERROR
  | TIMEOUT_ERROR
  | NETWORK_ERROR
  | UNKNOWN_ERROR
deriving DecidableEq

/-- The fields of `PromptResponse` the resilience layer manipulates:
the status tag, the optional error message, the content string and the
reported model. -/
structure PromptResponse where
  status : PromptResponseStatus
  error : Option String := none
  content : String := ""
  model : String := ""
deriving DecidableEq

/-- Model of `OpenAIClientService.buildErrorResponse`: derive the outward-facing
status from the message of an `Error` instance (default
`UNKNOWN_ERROR` and the default message for a non-`Error` value) and
return a response carrying that status and the message in the `error`
field. -/
def buildErrorResponse (error : JsError) : PromptResponse :=
  let errorMessage :=
    if error.isErrorInstance then error.message else DEFAULT_UNKNOWN_MESSAGE
  let status :=
    if error.isErrorInstance = false then PromptResponseStatus.UNKNOWN_ERROR
    else if strIncludes errorMessage KW_SCHEMA_MISMATCH then
      PromptResponseStatus.VALIDATION_ERROR
    else if strIncludes errorMessage KW_RATE_LIMIT ||
        strIncludes errorMessage "429" then
      PromptResponseStatus.RATE_LIMIT_ERROR
    else if strIncludes errorMessage KW_TIMEOUT ||
        strIncludes errorMessage KW_TIMED_OUT then
      PromptResponseStatus.TIMEOUT_ERROR
    else if strIncludes errorMessage KW_NETWORK ||
        strIncludes errorMessage KW_ECONNREFUSED ||
        strIncludes errorMessage KW_ENOTFOUND then
      PromptResponseStatus.NETWORK_ERROR
    else if strIncludes errorMessage KW_API ||
        strIncludes errorMessage "400" || strIncludes errorMessage "401" ||
        strIncludes errorMessage "403" || strIncludes errorMessage "500" then
      PromptResponseStatus.API_ERROR
    else PromptResponseStatus.UNKNOWN_ERROR
  { status := status, error := some errorMessage, content := "", model := "" }

/-- The attempt closure passed by `prompt` / `promptStream` to
`executeWithRetry`: run the upstream attempt (`fn n` is the outcome of
its `n`-th invocation); on success build the success response, on a
retriable failure rethrow for the retry manager, on a non-retriable
failure return `buildErrorResponse` of the error as a normal value. -/
def promptAttempt {α : Type} (fn : Nat → Except JsError α)
    (mkSuccess : α → PromptResponse) (n : Nat) : Except JsError PromptResponse :=
  match fn n with
  | Except.ok v => Except.ok (mkSuccess v)
  | Except.error e =>
    if isRetriableError e then Except.error e
    else Except.ok (buildErrorResponse e)

/-- The request-level composition of `prompt` / `promptStream`: the
attempt closure above run under `executeWithRetry`, with
`buildErrorResponse` as the error handler (applied to the JavaScript
`undefined` if the loop never recorded an error).  Returns the response
together with the number of upstream-attempt invocations. -/
def promptModel {α : Type} (enabled : Bool) (maxAttempts : Nat)
    (fn : Nat → Except JsError α) (mkSuccess : α → PromptResponse) :
    PromptResponse × Nat :=
  executeWithRetry enabled maxAttempts (promptAttempt fn mkSuccess)
    (fun oe => buildErrorResponse (oe.getD jsUndefined))

/-- The effect of one successful `prompt()` on the rate-limit window:
`executeWithRateLimiting` runs the final (admitting) `canMakeRequest`
poll at `tCheck` and records the pre-flight estimate at `tPre`; on
upstream success `prompt` records `response.usage?.total_tokens` at
`tPost`, with the `recordRequest` parameter defaulting to 0 when the
API reported no usage. -/
def promptSuccessEffect (s : RateLimitState) (tCheck tPre tPost : Int)
    (est : Nat) (usage : Option Nat) : RateLimitState :=
  let s1 := (canMakeRequest s tCheck est).2
  let s2 := recordRequest s1 tPre est
  recordRequest s2 tPost (usage.getD 0)

/-! ## Helper lemmas -/

theorem recordRequest_requestTimestamps (s : RateLimitState) (now : Int)
    (tokensUsed : Nat) :
    (recordRequest s now tokensUsed).requestTimestamps
      = s.requestTimestamps ++ [now] := by
  unfold recordRequest
  split <;> rfl

theorem recordRequest_requestsPerMinute (s : RateLimitState) (now : Int)
    (tokensUsed : Nat) :
    (recordRequest s now tokensUsed).requestsPerMinute = s.requestsPerMinute := by
  unfold recordRequest
  split <;> rfl

theorem recordRequest_tokensPerMinute (s : RateLimitState) (now : Int)
    (tokensUsed : Nat) :
    (recordRequest s now tokensUsed).tokensPerMinute = s.tokensPerMinute := by
  unfold recordRequest
  split <;> rfl

theorem canMakeRequest_snd (s : RateLimitState) (now : Int) (est : Nat) :
    (canMakeRequest s now est).2 = pruneWindow s now := by
  unfold canMakeRequest
  dsimp only
  split <;> (try split) <;> rfl

theorem isTokenRateLimitExceeded_of_none (s : RateLimitState) (est : Nat)
    (h : s.tokensPerMinute = none) :
    isTokenRateLimitExceeded s est = false := by
  unfold isTokenRateLimitExceeded
  rw [h]

/-- With the token limit disabled, the admission verdict is exactly the
negation of the request-count check on the pruned state. -/
theorem canMakeRequest_fst (s : RateLimitState) (now : Int) (est : Nat)
    (h : s.tokensPerMinute = none) :
    (canMakeRequest s now est).1
      = !(isRequestRateLimitExceeded (pruneWindow s now)) := by
  unfold canMakeRequest
  have htok : isTokenRateLimitExceeded (pruneWindow s now) est = false :=
    isTokenRateLimitExceeded_of_none _ _ h
  dsimp only
  rw [htok]
  split <;> simp_all

/-! ## C4 -/

/-- C4: `isRetriableError` classifies an error as retriable exactly
when it is a rate-limit rejection (status 429 or a rate-limit / "429"
message marker), a timeout, an upstream 5xx (status or message marker
500/502/503/504), or a transport/network failure; every other error is
terminal. -/
theorem C4_retriable_classification (e : JsError) :
    isRetriableError e = retriableSpec e := by
  unfold isRetriableError retriableSpec
  dsimp only
  split_ifs <;> simp_all

/-! ## C8 -/

/-- C8: with jitter enabled, `calculateDelayWithJitter d true f` always
lands in `[d*(1-f), d*(1+f)]` and is never negative; with jitter
disabled it returns `d` exactly. -/
theorem C8_jitter_bounds (d f r : ℚ) (hd : 0 ≤ d) (hf0 : 0 ≤ f)
    (hf1 : f ≤ 1) (hr0 : 0 ≤ r) (hr1 : r < 1) :
    (d * (1 - f) ≤ calculateDelayWithJitter d true f r
      ∧ calculateDelayWithJitter d true f r ≤ d * (1 + f)
      ∧ 0 ≤ calculateDelayWithJitter d true f r)
    ∧ calculateDelayWithJitter d false f r = d := by
  have hjit : calculateDelayWithJitter d true f r
      = max 0 (d + (r * 2 - 1) * (d * f)) := by
    unfold calculateDelayWithJitter
    simp
  have hnone : calculateDelayWithJitter d false f r = d := by
    unfold calculateDelayWithJitter
    simp
  refine ⟨⟨?_, ?_, ?_⟩, hnone⟩
  · rw [hjit]
    refine le_max_of_le_right ?_
    nlinarith [mul_nonneg (mul_nonneg hr0 hd) hf0]
  · rw [hjit]
    refine max_le (by nlinarith) ?_
    nlinarith [mul_nonneg hd hf0]
  · rw [hjit]
    exact le_max_left 0 _

/-- Witness for C8 at `d = 10`, `f = 1/2`, `r = 1/4`. -/
theorem C8_jitter_bounds_witness :
    ((10 : ℚ) * (1 - 1/2) ≤ calculateDelayWithJitter 10 true (1/2) (1/4)
      ∧ calculateDelayWithJitter 10 true (1/2) (1/4) ≤ 10 * (1 + 1/2)
      ∧ 0 ≤ calculateDelayWithJitter 10 true (1/2) (1/4))
    ∧ calculateDelayWithJitter 10 false (1/2) (1/4) = 10 :=
  C8_jitter_bounds 10 (1/2) (1/4) (by norm_num) (by norm_num) (by norm_num)
    (by norm_num) (by norm_num)

/-! ## C10 -/

/-- C10: construction-time validation accepts `requestDelay = 0`, and a
throttle whose `requestDelay` is 0 behaves exactly like an unconfigured
one — `throttle()` returns immediately with no sleep and leaves the
state (in particular `lastRequestTime`) unchanged, because `0` fails
the JavaScript truthiness guard. -/
theorem C10_zero_delay_inert (s : ThrottleState) (h : s.requestDelay = some 0)
    (uj : Option Bool) (now nowAfterSleep rand : ℚ) :
    validateThrottleSettings (some 0) uj none
        = Except.ok ⟨some 0, uj.getD true, 3/10⟩
    ∧ throttle s now nowAfterSleep rand = (none, s)
    ∧ throttle { s with requestDelay := none } now nowAfterSleep rand
        = (none, { s with requestDelay := none }) := by
  refine ⟨?_, ?_, ?_⟩
  · unfold validateThrottleSettings
    norm_num
  · unfold throttle requestDelayTruthy
    rw [h]
    simp
  · unfold throttle requestDelayTruthy
    simp

/-- Witness for C10 at a concrete throttle state. -/
theorem C10_zero_delay_inert_witness :
    validateThrottleSettings (some 0) none none
        = Except.ok ⟨some 0, true, 3/10⟩
    ∧ throttle ⟨some 0, true, 3/10, 0⟩ 5 7 (1/2) = (none, ⟨some 0, true, 3/10, 0⟩)
    ∧ throttle ⟨none, true, 3/10, 0⟩ 5 7 (1/2) = (none, ⟨none, true, 3/10, 0⟩) :=
  C10_zero_delay_inert ⟨some 0, true, 3/10, 0⟩ rfl none 5 7 (1/2)

/-! ## C7 -/

/-- C7: when retry is enabled with any `maxAttempts ≥ 1` and the first
invocation of the attempt function throws a non-retriable error,
`executeWithRetry` performs exactly one attempt and returns the error
handler applied to that error. -/
theorem C7_terminal_short_circuit {α : Type} (k : Nat) (hk : 1 ≤ k)
    (fn : Nat → Except JsError α) (e : JsError)
    (h0 : fn 0 = Except.error e) (hnr : isRetriableError e = false)
    (onError : Option JsError → α) :
    executeWithRetry true k fn onError = (onError (some e), 1) := by
  obtain ⟨k', rfl⟩ : ∃ k', k = k' + 1 := ⟨k - 1, by omega⟩
  unfold executeWithRetry executeWithRetryAux
  rw [h0]
  simp [hnr]

/-- Witness for C7: a 400-style error short-circuits with one attempt
even though `maxAttempts = 3`. -/
theorem C7_terminal_short_circuit_witness :
    executeWithRetry true 3
        (fun _ => (Except.error
          { isErrorInstance := true, message := "Bad Request",
            status := some 400 } : Except JsError Nat))
        (fun _ => 7)
      = (7, 1) :=
  C7_terminal_short_circuit 3 (by norm_num) _
    { isErrorInstance := true, message := "Bad Request", status := some 400 }
    rfl (by decide) _

/-! ## C9 -/

/-- C9: one successful `prompt()` appends exactly two entries to the
request-timestamp sequence — the pre-flight estimate record and the
post-flight usage record (present even when the API reports no usage,
via the `tokensUsed = 0` default) — so a single logical request
consumes two slots of the `requestsPerMinute` budget. -/
theorem C9_two_slots_per_prompt (s : RateLimitState) (tCheck tPre tPost : Int)
    (est : Nat) (usage : Option Nat)
    (hAdmit : (canMakeRequest s tCheck est).1 = true) :
    (promptSuccessEffect s tCheck tPre tPost est usage).requestTimestamps
      = s.requestTimestamps.filter
          (fun ts => decide (tCheck - RATE_LIMIT_WINDOW_MS < ts))
        ++ [tPre, tPost]
    ∧ (promptSuccessEffect s tCheck tPre tPost est usage).requestTimestamps.length
      = (s.requestTimestamps.filter
          (fun ts => decide (tCheck - RATE_LIMIT_WINDOW_MS < ts))).length + 2 := by
  have heq : (promptSuccessEffect s tCheck tPre tPost est usage).requestTimestamps
      = s.requestTimestamps.filter
          (fun ts => decide (tCheck - RATE_LIMIT_WINDOW_MS < ts))
        ++ [tPre, tPost] := by
    unfold promptSuccessEffect
    rw [recordRequest_requestTimestamps, recordRequest_requestTimestamps,
      canMakeRequest_snd]
    unfold pruneWindow
    simp
  exact ⟨heq, by rw [heq]; simp⟩

/-- Witness for C9: the empty window with `requestsPerMinute = 2`
admits a request at time 0, and the one successful prompt leaves two
timestamps behind. -/
theorem C9_two_slots_per_prompt_witness :
    (promptSuccessEffect ⟨some 2, none, [], []⟩ 0 0 0 100 none).requestTimestamps
      = ([] : List Int).filter (fun ts => decide ((0:Int) - RATE_LIMIT_WINDOW_MS < ts))
        ++ [0, 0]
    ∧ (promptSuccessEffect ⟨some 2, none, [], []⟩ 0 0 0 100 none).requestTimestamps.length
      = (([] : List Int).filter
          (fun ts => decide ((0:Int) - RATE_LIMIT_WINDOW_MS < ts))).length + 2 :=
  C9_two_slots_per_prompt ⟨some 2, none, [], []⟩ 0 0 0 100 none (by decide)

/-! ## C3 -/

/-- The retry loop under an always-failing, always-retriable attempt
function: it uses up all its fuel and ends with the error handler
applied to the error of the final attempt. -/
theorem retryAux_all_retriable {α : Type} (fn : Nat → Except JsError α)
    (e : Nat → JsError) (hfn : ∀ n, fn n = Except.error (e n))
    (hretr : ∀ n, isRetriableError (e n) = true)
    (onError : Option JsError → α) :
    ∀ fuel attempt last, 1 ≤ fuel →
      executeWithRetryAux fn onError fuel attempt last
        = (onError (some (e (attempt + fuel - 1))), fuel) := by
  intro fuel
  induction fuel with
  | zero => intro _ _ h; omega
  | succ f ih =>
    intro attempt last _
    unfold executeWithRetryAux
    rw [hfn attempt]
    dsimp only
    rw [hretr attempt]
    rcases Nat.eq_zero_or_pos f with h0 | hf
    · subst h0
      unfold executeWithRetryAux
      simp
    · rw [ih (attempt + 1) (some (e attempt)) hf]
      have harith : attempt + 1 + f - 1 = attempt + (f + 1) - 1 := by omega
      simp [harith]

/-- C3: with retry enabled and `maxAttempts = k ≥ 1`, an attempt
function that throws a retriable error on every invocation is invoked
exactly `k` times, and the result is the error handler applied to the
error of the `k`-th (most recent) invocation. -/
theorem C3_retry_exhaustion {α : Type} (k : Nat) (hk : 1 ≤ k)
    (fn : Nat → Except JsError α) (e : Nat → JsError)
    (hfn : ∀ n, fn n = Except.error (e n))
    (hretr : ∀ n, isRetriableError (e n) = true)
    (onError : Option JsError → α) :
    executeWithRetry true k fn onError = (onError (some (e (k - 1))), k) := by
  unfold executeWithRetry
  rw [if_pos rfl]
  have := retryAux_all_retriable fn e hfn hretr onError k 0 none hk
  simpa using this

/-- Witness for C3: three 429-style failures exhaust `maxAttempts = 3`
and the handler receives the last error. -/
theorem C3_retry_exhaustion_witness :
    executeWithRetry true 3
        (fun n => (Except.error
          { isErrorInstance := true, message := "rate limit",
            status := some (429 + n) } : Except JsError Nat))
        (fun oe => (oe.getD jsUndefined).status.getD 0 |>.toNat)
      = (431, 3) :=
  C3_retry_exhaustion 3 (by norm_num) _
    (fun n => { isErrorInstance := true, message := "rate limit",
                status := some (429 + n) })
    (fun _ => rfl)
    (fun _ => by
      have hmsg : strIncludes "rate limit" KW_RATE_LIMIT = true := by decide
      simp [isRetriableError, getErrorMessage, hmsg])
    _

/-! ## C2 -/

/-- Lemma: `buildErrorResponse` always produces a non-success status and
carries the message in the `error` field. -/
theorem buildErrorResponse_not_success (e : JsError) :
    (buildErrorResponse e).status ≠ PromptResponseStatus.SUCCESS
    ∧ ((buildErrorResponse e).error).isSome = true := by
  unfold buildErrorResponse
  dsimp only
  constructor
  · split_ifs <;> simp
  · rfl

/-- Under an always-failing attempt function, the request-level
composition always ends in some `buildErrorResponse`. -/
theorem promptModel_all_errors {α : Type} (enabled : Bool) (k : Nat)
    (fn : Nat → Except JsError α) (mkSuccess : α → PromptResponse)
    (h : ∀ n, ∃ e, fn n = Except.error e) :
    ∃ e, (promptModel enabled k fn mkSuccess).1 = buildErrorResponse e := by
  have key : ∀ fuel attempt last,
      ∃ e, (executeWithRetryAux (promptAttempt fn mkSuccess)
              (fun oe => buildErrorResponse (oe.getD jsUndefined))
              fuel attempt last).1 = buildErrorResponse e := by
    intro fuel
    induction fuel with
    | zero => intro attempt last; exact ⟨last.getD jsUndefined, rfl⟩
    | succ f ih =>
      intro attempt last
      obtain ⟨e, he⟩ := h attempt
      cases hre : isRetriableError e with
      | false =>
        have hatt : promptAttempt fn mkSuccess attempt
            = Except.ok (buildErrorResponse e) := by
          unfold promptAttempt
          rw [he]
          simp [hre]
        unfold executeWithRetryAux
        rw [hatt]
        exact ⟨e, rfl⟩
      | true =>
        have hatt : promptAttempt fn mkSuccess attempt = Except.error e := by
          unfold promptAttempt
          rw [he]
          simp [hre]
        obtain ⟨e', he'⟩ := ih (attempt + 1) (some e)
        refine ⟨e', ?_⟩
        unfold executeWithRetryAux
        rw [hatt]
        dsimp only
        rw [hre]
        simp [he']
  cases enabled with
  | true =>
    have := key k 0 none
    simpa [promptModel, executeWithRetry] using this
  | false =>
    obtain ⟨e, he⟩ := h 0
    cases hre : isRetriableError e with
    | false =>
      have hatt : promptAttempt fn mkSuccess 0
          = Except.ok (buildErrorResponse e) := by
        unfold promptAttempt
        rw [he]
        simp [hre]
      exact ⟨e, by simp [promptModel, executeWithRetry, hatt]⟩
    | true =>
      have hatt : promptAttempt fn mkSuccess 0 = Except.error e := by
        unfold promptAttempt
        rw [he]
        simp [hre]
      exact ⟨e, by simp [promptModel, executeWithRetry, hatt]⟩

/-- C2: whenever every upstream attempt of `prompt()` /
`promptStream()` throws, the call still returns normally with a
response whose status is a non-success value of the taxonomy and whose
`error` field carries the message. -/
theorem C2_failure_returns_error_response {α : Type} (enabled : Bool)
    (k : Nat) (fn : Nat → Except JsError α) (mkSuccess : α → PromptResponse)
    (h : ∀ n, ∃ e, fn n = Except.error e) :
    (promptModel enabled k fn mkSuccess).1.status ≠ PromptResponseStatus.SUCCESS
    ∧ (((promptModel enabled k fn mkSuccess).1.error)).isSome = true := by
  obtain ⟨e, he⟩ := promptModel_all_errors enabled k fn mkSuccess h
  rw [he]
  exact buildErrorResponse_not_success e

/-- Witness for C2 with a concrete always-throwing attempt. -/
theorem C2_failure_returns_error_response_witness :
    (promptModel true 2
        (fun _ => (Except.error
          { isErrorInstance := true, message := "Request timed out" }
            : Except JsError Unit))
        (fun _ => { status := PromptResponseStatus.SUCCESS })).1.status
      ≠ PromptResponseStatus.SUCCESS
    ∧ ((promptModel true 2
        (fun _ => (Except.error
          { isErrorInstance := true, message := "Request timed out" }
            : Except JsError Unit))
        (fun _ => { status := PromptResponseStatus.SUCCESS })).1.error).isSome
      = true :=
  C2_failure_returns_error_response true 2 _ _
    (fun _ => ⟨{ isErrorInstance := true, message := "Request timed out" }, rfl⟩)

/-! ## C5 -/

/-- C5: the retry backoff is monotone from attempt `n` to `n + 1` for
every pair of jitter samples as long as the exponential term is still
below the cap, and it never exceeds `maxDelay * 1.25` (cap plus the
maximum 25% jitter). -/
theorem C5_backoff_mono_cap (base maxD : ℚ) (hb : 0 ≤ base) (hm : 0 ≤ maxD)
    (n : Nat) (r1 r2 : ℚ) (hr10 : 0 ≤ r1) (hr11 : r1 < 1)
    (hr20 : 0 ≤ r2) (hr21 : r2 < 1) :
    (base * 2 ^ (n + 1) ≤ maxD →
      calculateDelay base maxD n r1 ≤ calculateDelay base maxD (n + 1) r2)
    ∧ ((calculateDelay base maxD n r1 : ℚ) ≤ maxD * 1.25) := by
  constructor
  · intro hcap
    have hpow : base * 2 ^ n ≤ base * 2 ^ (n + 1) := by
      have h2 : (2:ℚ) ^ n ≤ 2 ^ (n + 1) := by
        apply pow_le_pow_right (by norm_num)
        omega
      nlinarith
    unfold calculateDelay
    dsimp only
    rw [min_eq_left (le_trans hpow hcap), min_eq_left hcap]
    apply Int.floor_le_floor
    have hc : (0:ℚ) ≤ base * 2 ^ n := by positivity
    have heq : base * 2 ^ (n + 1) = 2 * (base * 2 ^ n) := by ring
    nlinarith [mul_nonneg hc hr20,
      mul_nonneg hc (by linarith : (0:ℚ) ≤ 1 - r1)]
  · unfold calculateDelay
    dsimp only
    have hcle : min (base * 2 ^ n) maxD ≤ maxD := min_le_right _ _
    have hc0 : (0:ℚ) ≤ min (base * 2 ^ n) maxD := le_min (by positivity) hm
    refine le_trans (Int.floor_le _) ?_
    nlinarith [mul_nonneg hc0 (by linarith : (0:ℚ) ≤ 1 - r1)]

/-- Witness for C5 at `base = 100`, `maxDelay = 1000`, `n = 0`. -/
theorem C5_backoff_mono_cap_witness :
    ((100:ℚ) * 2 ^ (0 + 1) ≤ 1000 →
      calculateDelay 100 1000 0 (1/2) ≤ calculateDelay 100 1000 (0 + 1) (1/3))
    ∧ ((calculateDelay 100 1000 0 (1/2) : ℚ) ≤ 1000 * 1.25) :=
  C5_backoff_mono_cap 100 1000 (by norm_num) (by norm_num) 0 (1/2) (1/3)
    (by norm_num) (by norm_num) (by norm_num) (by norm_num)

/-! ## C6 -/

/-- A filter keeps the whole length exactly when every element
satisfies the predicate. -/
theorem length_le_length_filter_iff {α : Type} (l : List α) (p : α → Bool) :
    l.length ≤ (l.filter p).length ↔ ∀ a ∈ l, p a = true := by
  induction l with
  | nil => simp
  | cons a t ih =>
    cases hpa : p a with
    | true => simp [List.filter_cons, hpa, ih]
    | false =>
      have hle := List.length_filter_le p t
      simp [List.filter_cons, hpa]
      omega

/-- Pruning at `T` and then at a later `T'` is the same as pruning at
`T'` directly. -/
theorem pruneWindow_pruneWindow (s : RateLimitState) (T T' : Int)
    (h : T ≤ T') :
    pruneWindow (pruneWindow s T) T' = pruneWindow s T' := by
  have hw : ∀ (w a : Int),
      (decide (T' - w < a) && decide (T - w < a)) = decide (T' - w < a) := by
    intro w a
    by_cases hx : T' - w < a
    · have hx2 : T - w < a := by omega
      simp [hx, hx2]
    · simp [hx]
  unfold pruneWindow
  dsimp only
  congr 1
  · rw [List.filter_filter]
    exact List.filter_congr (fun a _ => hw RATE_LIMIT_WINDOW_MS a)
  · rw [List.filter_filter]
    exact List.filter_congr (fun a _ => hw RATE_LIMIT_WINDOW_MS a.1)

/-- A later admission check on the state mutated by an earlier check
behaves exactly like a fresh check on the original state. -/
theorem canMakeRequest_after_check (s : RateLimitState) (T T' : Int)
    (est est' : Nat) (h : T ≤ T') :
    canMakeRequest (canMakeRequest s T est).2 T' est'
      = canMakeRequest s T' est' := by
  rw [canMakeRequest_snd]
  unfold canMakeRequest
  rw [pruneWindow_pruneWindow s T T' h]

/-- C6: with `maxRequestsPerWindow = R` and `R` recorded timestamps,
the admission check fails exactly while every recorded timestamp is
still inside the 60 000 ms window (i.e. until the earliest one ages
out), and repeated checks at non-decreasing times agree with fresh
checks, so the verdict stays `false` until the earliest timestamp ages
out and is `true` afterwards. -/
theorem C6_window_blocks_until_aged (R : Nat) (s : RateLimitState) (est : Nat)
    (hR : s.requestsPerMinute = some R) (hT : s.tokensPerMinute = none)
    (hlen : s.requestTimestamps.length = R) :
    (∀ T : Int, ((canMakeRequest s T est).1 = false ↔
        ∀ t ∈ s.requestTimestamps, T - RATE_LIMIT_WINDOW_MS < t))
    ∧ (∀ T T' : Int, T ≤ T' →
        (canMakeRequest (canMakeRequest s T est).2 T' est).1
          = (canMakeRequest s T' est).1) := by
  constructor
  · intro T
    rw [canMakeRequest_fst s T est hT]
    have hcfg : (pruneWindow s T).requestsPerMinute = some R := hR
    unfold isRequestRateLimitExceeded
    rw [hcfg]
    have hts : (pruneWindow s T).requestTimestamps
        = s.requestTimestamps.filter
            (fun ts => decide (T - RATE_LIMIT_WINDOW_MS < ts)) := rfl
    rw [hts, ← hlen]
    simp [length_le_length_filter_iff]
  · intro T T' hTT
    rw [canMakeRequest_after_check s T T' est est hTT]

/-- Witness for C6 at `R = 2`, two timestamps at time 0. -/
theorem C6_window_blocks_until_aged_witness :
    (∀ T : Int, ((canMakeRequest ⟨some 2, none, [0, 0], []⟩ T 5).1 = false ↔
        ∀ t ∈ ([0, 0] : List Int), T - RATE_LIMIT_WINDOW_MS < t))
    ∧ (∀ T T' : Int, T ≤ T' →
        (canMakeRequest (canMakeRequest ⟨some 2, none, [0, 0], []⟩ T 5).2 T' 5).1
          = (canMakeRequest ⟨some 2, none, [0, 0], []⟩ T' 5).1) :=
  C6_window_blocks_until_aged 2 ⟨some 2, none, [0, 0], []⟩ 5 rfl rfl rfl

/-! ## C1 -/

/-- C1 counterexample: with `requestsPerMinute = 2` and no token limit,
the first `prompt()` at time 0 is admitted, but — because one
successful prompt records two timestamps — the admission check of a
second `prompt()` issued at the same instant already returns `false`,
so the second call does *not* complete without a rate-limit wait. -/
theorem C1_counterexample_second_call_waits :
    (canMakeRequest (⟨some 2, none, [], []⟩ : RateLimitState) 0 100).1 = true
    ∧ (canMakeRequest
        (promptSuccessEffect ⟨some 2, none, [], []⟩ 0 0 0 100 (some 50))
        0 100).1 = false
    ∧ waitForRateLimit
        (promptSuccessEffect ⟨some 2, none, [], []⟩ 0 0 0 100 (some 50))
        100 ((List.range 60).map fun i => 1000 * (i : Int)) = none := by
  decide

/-- C1 amended: with `requestsPerMinute = 2` and no token limit, the
first `prompt()` is admitted with no rate-limit wait, and it is already
the *second* sequential `prompt()` that suspends in the rate-limit
wait; its admission check succeeds exactly once 60 000 ms have passed
since the earliest recorded request timestamp (the first call's
pre-flight record). -/
theorem C1_amended_second_call_threshold (tPre tPost : Int)
    (hle : tPre ≤ tPost) (est est' : Nat) (usage : Option Nat) (T : Int) :
    (canMakeRequest (⟨some 2, none, [], []⟩ : RateLimitState) tPre est).1 = true
    ∧ ((canMakeRequest
          (promptSuccessEffect ⟨some 2, none, [], []⟩ tPre tPre tPost est usage)
          T est').1 = true
        ↔ tPre + RATE_LIMIT_WINDOW_MS ≤ T) := by
  constructor
  · rfl
  · set X := promptSuccessEffect ⟨some 2, none, [], []⟩ tPre tPre tPost est usage
      with hX
    have hts : X.requestTimestamps = [tPre, tPost] := by
      rw [hX]
      unfold promptSuccessEffect
      rw [recordRequest_requestTimestamps, recordRequest_requestTimestamps,
        canMakeRequest_snd]
      rfl
    have hcfg_t : X.tokensPerMinute = none := by
      rw [hX]
      unfold promptSuccessEffect
      rw [recordRequest_tokensPerMinute, recordRequest_tokensPerMinute,
        canMakeRequest_snd]
      rfl
    have hcfg_r : X.requestsPerMinute = some 2 := by
      rw [hX]
      unfold promptSuccessEffect
      rw [recordRequest_requestsPerMinute, recordRequest_requestsPerMinute,
        canMakeRequest_snd]
      rfl
    rw [canMakeRequest_fst X T est' hcfg_t]
    have hcfg : (pruneWindow X T).requestsPerMinute = some 2 := hcfg_r
    unfold isRequestRateLimitExceeded
    rw [hcfg]
    have hflt : (pruneWindow X T).requestTimestamps
        = X.requestTimestamps.filter
            (fun ts => decide (T - RATE_LIMIT_WINDOW_MS < ts)) := rfl
    rw [hflt, hts]
    simp only [RATE_LIMIT_WINDOW_MS] at *
    by_cases hx : T - 60000 < tPre
    · have hx2 : T - 60000 < tPost := by omega
      simp [List.filter_cons, hx, hx2]
      omega
    · by_cases hx2 : T - 60000 < tPost
      · simp [List.filter_cons, hx, hx2]
        omega
      · simp [List.filter_cons, hx, hx2]
        omega

/-- Witness for C1's amended theorem at `tPre = tPost = 0`,
`T = 60000`. -/
theorem C1_amended_second_call_threshold_witness :
    (canMakeRequest (⟨some 2, none, [], []⟩ : RateLimitState) 0 100).1 = true
    ∧ ((canMakeRequest
          (promptSuccessEffect ⟨some 2, none, [], []⟩ 0 0 0 100 (some 50))
          60000 100).1 = true
        ↔ (0:Int) + RATE_LIMIT_WINDOW_MS ≤ 60000) :=
  C1_amended_second_call_threshold 0 0 (by norm_num) 100 100 (some 50) 60000

end AISmartClient
